import Mathlib

set_option maxRecDepth 4000

/-
Verification of src/normalize_needed_jobs_status.py (re-actors/alls-green).

The Python module is shallowly embedded below.  Values that the program
receives from json.loads are modelled by the inductive type Json; Python
floats are abstracted to their truthiness (zero or not), because the
program only ever subjects them to truthiness tests, hashability tests,
iteration attempts and equality comparisons with strings, none of which
depend on more than that.  Fallible Python operations (raising
JSONDecodeError, TypeError or KeyError) are modelled with Except.
-/

namespace AllsGreen

/-- JSON values as produced by the Python json module. -/
inductive Json where
  | null : Json
  | bool (b : Bool) : Json
  | num (n : Int) : Json
  | flt (zero : Bool) : Json
  | str (s : String) : Json
  | arr (elems : List Json) : Json
  | obj (members : List (String × Json)) : Json

mutual

def Json.decEq : (a b : Json) → Decidable (a = b)
  | Json.null, Json.null => isTrue rfl
  | Json.bool a, Json.bool b =>
    if h : a = b then isTrue (by rw [h]) else isFalse (by simp [h])
  | Json.num a, Json.num b =>
    if h : a = b then isTrue (by rw [h]) else isFalse (by simp [h])
  | Json.flt a, Json.flt b =>
    if h : a = b then isTrue (by rw [h]) else isFalse (by simp [h])
  | Json.str a, Json.str b =>
    if h : a = b then isTrue (by rw [h]) else isFalse (by simp [h])
  | Json.arr xs, Json.arr ys =>
    match Json.decEqList xs ys with
    | isTrue h => isTrue (by rw [h])
    | isFalse h => isFalse (by simp [h])
  | Json.obj xs, Json.obj ys =>
    match Json.decEqMembers xs ys with
    | isTrue h => isTrue (by rw [h])
    | isFalse h => isFalse (by simp [h])
  | Json.null, Json.bool _ => isFalse (by simp)
  | Json.null, Json.num _ => isFalse (by simp)
  | Json.null, Json.flt _ => isFalse (by simp)
  | Json.null, Json.str _ => isFalse (by simp)
  | Json.null, Json.arr _ => isFalse (by simp)
  | Json.null, Json.obj _ => isFalse (by simp)
  | Json.bool _, Json.null => isFalse (by simp)
  | Json.bool _, Json.num _ => isFalse (by simp)
  | Json.bool _, Json.flt _ => isFalse (by simp)
  | Json.bool _, Json.str _ => isFalse (by simp)
  | Json.bool _, Json.arr _ => isFalse (by simp)
  | Json.bool _, Json.obj _ => isFalse (by simp)
  | Json.num _, Json.null => isFalse (by simp)
  | Json.num _, Json.bool _ => isFalse (by simp)
  | Json.num _, Json.flt _ => isFalse (by simp)
  | Json.num _, Json.str _ => isFalse (by simp)
  | Json.num _, Json.arr _ => isFalse (by simp)
  | Json.num _, Json.obj _ => isFalse (by simp)
  | Json.flt _, Json.null => isFalse (by simp)
  | Json.flt _, Json.bool _ => isFalse (by simp)
  | Json.flt _, Json.num _ => isFalse (by simp)
  | Json.flt _, Json.str _ => isFalse (by simp)
  | Json.flt _, Json.arr _ => isFalse (by simp)
  | Json.flt _, Json.obj _ => isFalse (by simp)
  | Json.str _, Json.null => isFalse (by simp)
  | Json.str _, Json.bool _ => isFalse (by simp)
  | Json.str _, Json.num _ => isFalse (by simp)
  | Json.str _, Json.flt _ => isFalse (by simp)
  | Json.str _, Json.arr _ => isFalse (by simp)
  | Json.str _, Json.obj _ => isFalse (by simp)
  | Json.arr _, Json.null => isFalse (by simp)
  | Json.arr _, Json.bool _ => isFalse (by simp)
  | Json.arr _, Json.num _ => isFalse (by simp)
  | Json.arr _, Json.flt _ => isFalse (by simp)
  | Json.arr _, Json.str _ => isFalse (by simp)
  | Json.arr _, Json.obj _ => isFalse (by simp)
  | Json.obj _, Json.null => isFalse (by simp)
  | Json.obj _, Json.bool _ => isFalse (by simp)
  | Json.obj _, Json.num _ => isFalse (by simp)
  | Json.obj _, Json.flt _ => isFalse (by simp)
  | Json.obj _, Json.str _ => isFalse (by simp)
  | Json.obj _, Json.arr _ => isFalse (by simp)

def Json.decEqList : (a b : List Json) → Decidable (a = b)
  | [], [] => isTrue rfl
  | [], _ :: _ => isFalse (by simp)
  | _ :: _, [] => isFalse (by simp)
  | x :: xs, y :: ys =>
    match Json.decEq x y, Json.decEqList xs ys with
    | isTrue h1, isTrue h2 => isTrue (by rw [h1, h2])
    | isFalse h1, _ => isFalse (by simp [h1])
    | isTrue _, isFalse h2 => isFalse (by simp [h2])

def Json.decEqMembers : (a b : List (String × Json)) → Decidable (a = b)
  | [], [] => isTrue rfl
  | [], _ :: _ => isFalse (by simp)
  | _ :: _, [] => isFalse (by simp)
  | (k1, v1) :: xs, (k2, v2) :: ys =>
    match String.decEq k1 k2, Json.decEq v1 v2, Json.decEqMembers xs ys with
    | isTrue hk, isTrue hv, isTrue ht => isTrue (by rw [hk, hv, ht])
    | isFalse hk, _, _ => isFalse (by simp [hk])
    | isTrue _, isFalse hv, _ => isFalse (by simp [hv])
    | isTrue _, isTrue _, isFalse ht => isFalse (by simp [ht])

end

instance : DecidableEq Json := Json.decEq

instance {ε α : Type} [DecidableEq ε] [DecidableEq α] : DecidableEq (Except ε α) :=
  fun a b =>
    match a, b with
    | Except.ok x, Except.ok y =>
      if h : x = y then isTrue (by rw [h]) else isFalse (by simp [h])
    | Except.error x, Except.error y =>
      if h : x = y then isTrue (by rw [h]) else isFalse (by simp [h])
    | Except.ok _, Except.error _ => isFalse (by simp)
    | Except.error _, Except.ok _ => isFalse (by simp)

/-- The character 0x7b. -/
def lbraceChar : Char := Char.ofNat 123

/-- The character 0x7d. -/
def rbraceChar : Char := Char.ofNat 125

def isJsonWs (c : Char) : Bool :=
  c = ' ' || c = '\t' || c = '\n' || c = '\r'

def skipWs : List Char → List Char
  | [] => []
  | c :: cs => if isJsonWs c then skipWs cs else c :: cs

def hexVal (c : Char) : Option Nat :=
  if '0' ≤ c ∧ c ≤ '9' then some (c.toNat - 48)
  else if 'a' ≤ c ∧ c ≤ 'f' then some (c.toNat - 97 + 10)
  else if 'A' ≤ c ∧ c ≤ 'F' then some (c.toNat - 65 + 10)
  else none

def escMap (c : Char) : Option Char :=
  if c = '"' then some '"'
  else if c = '\\' then some '\\'
  else if c = '/' then some '/'
  else if c = 'b' then some (Char.ofNat 8)
  else if c = 'f' then some (Char.ofNat 12)
  else if c = 'n' then some '\n'
  else if c = 'r' then some '\r'
  else if c = 't' then some '\t'
  else none

/-- Parse the body of a JSON string (the opening quote has been consumed);
returns the decoded characters and the input after the closing quote. -/
def parseStrBody : List Char → Option (List Char × List Char)
  | [] => none
  | c :: cs =>
    if c = '"' then some ([], cs)
    else if c = '\\' then
      match cs with
      | [] => none
      | e :: es =>
        if e = 'u' then
          match es with
          | h1 :: h2 :: h3 :: h4 :: rest =>
            match hexVal h1, hexVal h2, hexVal h3, hexVal h4 with
            | some a, some b, some d, some f =>
              (parseStrBody rest).map fun r =>
                (Char.ofNat (((a * 16 + b) * 16 + d) * 16 + f) :: r.1, r.2)
            | _, _, _, _ => none
          | _ => none
        else
          match escMap e with
          | some ec => (parseStrBody es).map fun r => (ec :: r.1, r.2)
          | none => none
    else if c.toNat < 32 then none
    else (parseStrBody cs).map fun r => (c :: r.1, r.2)

def isDigitChar (c : Char) : Bool := '0' ≤ c && c ≤ '9'

def takeDigits : List Char → List Char × List Char
  | [] => ([], [])
  | c :: cs =>
    if isDigitChar c then
      let r := takeDigits cs
      (c :: r.1, r.2)
    else ([], c :: cs)

def digitsToNat (ds : List Char) : Nat :=
  ds.foldl (fun acc c => acc * 10 + (c.toNat - 48)) 0

/-- Parse a JSON number (grammar of the Python json module: an optional
minus, an integer part that is 0 or starts with a nonzero digit, an
optional fraction, an optional exponent).  A number with a fraction or an
exponent is a float, abstracted to whether its mantissa is zero. -/
def parseNumber (cs : List Char) : Option (Json × List Char) :=
  let neg : Bool × List Char :=
    match cs with
    | c :: rest => if c = '-' then (true, rest) else (false, cs)
    | [] => (false, [])
  match neg.2 with
  | [] => none
  | d :: _ =>
    if isDigitChar d then
      let ip : List Char × List Char :=
        match neg.2 with
        | c :: rest => if c = '0' then ([c], rest) else takeDigits neg.2
        | [] => ([], [])
      let fp : List Char × List Char :=
        match ip.2 with
        | c :: rest =>
          if c = '.' then
            let fr := takeDigits rest
            if fr.1 = [] then ([], ip.2) else (fr.1, fr.2)
          else ([], ip.2)
        | [] => ([], ip.2)
      let ep : List Char × List Char :=
        match fp.2 with
        | c :: rest =>
          if c = 'e' ∨ c = 'E' then
            let sr : List Char :=
              match rest with
              | s :: r2 => if s = '+' ∨ s = '-' then r2 else rest
              | [] => rest
            let ex := takeDigits sr
            if ex.1 = [] then ([], fp.2) else (ex.1, ex.2)
          else ([], fp.2)
        | [] => ([], fp.2)
      if fp.1 = [] ∧ ep.1 = [] then
        let n : Int := Int.ofNat (digitsToNat ip.1)
        some (Json.num (if neg.1 then -n else n), ip.2)
      else
        some (Json.flt (digitsToNat ip.1 = 0 ∧ digitsToNat fp.1 = 0), ep.2)
    else none

/-- Python dict insertion: replace the value in place when the key is
already present, append otherwise. -/
def dictInsert (kvs : List (String × Json)) (k : String) (v : Json) :
    List (String × Json) :=
  if kvs.any fun kv => kv.1 = k then
    kvs.map fun kv => if kv.1 = k then (k, v) else kv
  else kvs ++ [(k, v)]

/-- Collapse the duplicate keys of parsed object members the way a Python
dict does (last value wins, first position wins). -/
def pyDict (pairs : List (String × Json)) : List (String × Json) :=
  pairs.foldl (fun acc kv => dictInsert acc kv.1 kv.2) []

/-- Parse the comma-separated items of a non-empty JSON array, up to and
including the closing bracket; pv parses one value. -/
def parseArrItemsF (pv : List Char → Option (Json × List Char)) :
    Nat → List Char → Option (List Json × List Char)
  | 0, _ => none
  | fuel + 1, cs =>
    match pv cs with
    | none => none
    | some (v, rest) =>
      match skipWs rest with
      | c :: r2 =>
        if c = ',' then
          (parseArrItemsF pv fuel r2).map fun r => (v :: r.1, r.2)
        else if c = ']' then some ([v], r2)
        else none
      | [] => none

/-- Parse the comma-separated members of a non-empty JSON object, up to
and including the closing 0x7d; pv parses one value. -/
def parseObjItemsF (pv : List Char → Option (Json × List Char)) :
    Nat → List Char → Option (List (String × Json) × List Char)
  | 0, _ => none
  | fuel + 1, cs =>
    match skipWs cs with
    | c :: rest =>
      if c = '"' then
        match parseStrBody rest with
        | none => none
        | some (kcs, r1) =>
          match skipWs r1 with
          | c2 :: r2 =>
            if c2 = ':' then
              match pv r2 with
              | none => none
              | some (v, r3) =>
                match skipWs r3 with
                | c3 :: r4 =>
                  if c3 = ',' then
                    (parseObjItemsF pv fuel r4).map fun r =>
                      ((String.mk kcs, v) :: r.1, r.2)
                  else if c3 = rbraceChar then
                    some ([(String.mk kcs, v)], r4)
                  else none
                | [] => none
            else none
          | [] => none
      else none
    | [] => none

/-- Parse one JSON value, fuel-bounded. -/
def parseVal : Nat → List Char → Option (Json × List Char)
  | 0, _ => none
  | fuel + 1, cs =>
    match skipWs cs with
    | [] => none
    | c :: rest =>
      if c = 'n' then
        match rest with
        | 'u' :: 'l' :: 'l' :: r => some (Json.null, r)
        | _ => none
      else if c = 't' then
        match rest with
        | 'r' :: 'u' :: 'e' :: r => some (Json.bool true, r)
        | _ => none
      else if c = 'f' then
        match rest with
        | 'a' :: 'l' :: 's' :: 'e' :: r => some (Json.bool false, r)
        | _ => none
      else if c = 'N' then
        match rest with
        | 'a' :: 'N' :: r => some (Json.flt false, r)
        | _ => none
      else if c = 'I' then
        match rest with
        | 'n' :: 'f' :: 'i' :: 'n' :: 'i' :: 't' :: 'y' :: r =>
          some (Json.flt false, r)
        | _ => none
      else if c = '-' then
        match rest with
        | 'I' :: 'n' :: 'f' :: 'i' :: 'n' :: 'i' :: 't' :: 'y' :: r =>
          some (Json.flt false, r)
        | _ => parseNumber (c :: rest)
      else if c = '"' then
        (parseStrBody rest).map fun r => (Json.str (String.mk r.1), r.2)
      else if c = '[' then
        match skipWs rest with
        | c2 :: r2 =>
          if c2 = ']' then some (Json.arr [], r2)
          else
            (parseArrItemsF (parseVal fuel) fuel (c2 :: r2)).map fun r =>
              (Json.arr r.1, r.2)
        | [] => none
      else if c = lbraceChar then
        match skipWs rest with
        | c2 :: r2 =>
          if c2 = rbraceChar then some (Json.obj [], r2)
          else
            (parseObjItemsF (parseVal fuel) fuel (c2 :: r2)).map fun r =>
              (Json.obj (pyDict r.1), r.2)
        | [] => none
      else
        parseNumber (c :: rest)

/-- Model of the Python json.loads library function: parse one JSON value
surrounded by optional whitespace and require the input to be fully
consumed; anything else raises JSONDecodeError (modelled as none). -/
def json_loads (s : String) : Option Json :=
  match parseVal (2 * s.toList.length + 2) s.toList with
  | some (v, rest) => if skipWs rest = [] then some v else none
  | none => none

/-- Python truthiness of a value. -/
def py_truthy : Json → Bool
  | Json.null => false
  | Json.bool b => b
  | Json.num n => n != 0
  | Json.flt z => !z
  | Json.str s => s != ""
  | Json.arr xs => !xs.isEmpty
  | Json.obj kvs => !kvs.isEmpty

/-- Whether set() accepts the value as an element; Python lists and dicts
are unhashable and make set() raise TypeError. -/
def py_hashable : Json → Bool
  | Json.arr _ => false
  | Json.obj _ => false
  | _ => true

/-- Python iteration over a value: a list yields its elements, a string
yields its characters as one-character strings, a dict yields its keys;
any other value raises TypeError. -/
def py_iter : Json → Except String (List Json)
  | Json.arr xs => Except.ok xs
  | Json.str s => Except.ok (s.toList.map fun c => Json.str (String.mk [c]))
  | Json.obj kvs => Except.ok (kvs.map fun kv => Json.str kv.1)
  | _ => Except.error "TypeError: object is not iterable"

/-- The whitespace characters removed by Python str.strip(): space, tab,
newline, carriage return, vertical tab, form feed. -/
def isPyStripWs (c : Char) : Bool :=
  c = ' ' || c = '\t' || c = '\n' || c = '\r' ||
    c = Char.ofNat 11 || c = Char.ofNat 12

/-- Python str.strip(): remove leading and trailing whitespace. -/
def py_strip (s : String) : String :=
  String.mk (((s.toList.dropWhile isPyStripWs).reverse.dropWhile
    isPyStripWs).reverse)

def splitCommaAux : List Char → List Char → List String
  | [], acc => [String.mk acc.reverse]
  | c :: cs, acc =>
    if c = ',' then String.mk acc.reverse :: splitCommaAux cs []
    else splitCommaAux cs (c :: acc)

/-- Python str.split on the comma separator: every comma separates, so the
empty string yields one empty piece. -/
def py_split_comma (s : String) : List String := splitCommaAux s.toList []

/-- parse_as_list (source lines 64-73): try json.loads; on JSONDecodeError
fall back to splitting on commas and stripping each piece.  The fallback
result, a Python list of strings, is represented as Json.arr of Json.str. -/
def parse_as_list (input_text : String) : Json :=
  match json_loads input_text with
  | some v => v
  | none =>
    Json.arr ((py_split_comma input_text).map fun s => Json.str (py_strip s))

/-- drop_empty_from_list (source lines 72-73): the list comprehension
iterates the argument and keeps its truthy elements; iterating a
non-iterable value raises TypeError. -/
def drop_empty_from_list (a_list : Json) : Except String (List Json) :=
  (py_iter a_list).map fun xs => xs.filter py_truthy

/-- The normalized action inputs (source lines 20-23 and 76-93). -/
structure ActionInputs where
  allowed_failures : List Json
  allowed_skips : List Json
  jobs : Json
  deriving DecidableEq

/-- parse_inputs (source lines 76-93): normalize the two allow-lists and
json.loads the jobs matrix; failures propagate in source order. -/
def parse_inputs (raw_allowed_failures raw_allowed_skips raw_jobs : String) :
    Except String ActionInputs :=
  match drop_empty_from_list (parse_as_list raw_allowed_failures) with
  | Except.error e => Except.error e
  | Except.ok af =>
    match drop_empty_from_list (parse_as_list raw_allowed_skips) with
    | Except.error e => Except.error e
    | Except.ok sk =>
      match json_loads raw_jobs with
      | some j => Except.ok ⟨af, sk, j⟩
      | none => Except.error "json.decoder.JSONDecodeError"

/-- allowed_outcome_map for one job name (source lines 189-195): the
permission class starts at the singleton success and is extended with
skipped and with failure according to the allow-lists. -/
def allowed_outcome_map (jobs_allowed_to_fail jobs_allowed_to_be_skipped : List Json)
    (job_name : String) : List String :=
  ["success"]
    ++ (if Json.str job_name ∈ jobs_allowed_to_be_skipped then ["skipped"] else [])
    ++ (if Json.str job_name ∈ jobs_allowed_to_fail then ["failure"] else [])

/-- The Python membership test result in allowed_outcome_map[name], where
the right-hand side is a set of strings: a non-string result is simply not
a member. -/
def result_in (result : Json) (allowed : List String) : Bool :=
  match result with
  | Json.str s => decide (s ∈ allowed)
  | _ => false

/-- job_matrix_succeeded (source lines 206-209): the verdict is the AND
over all jobs of membership of the result in the permission class. -/
def job_matrix_succeeded (jobs : List (String × Json))
    (jobs_allowed_to_fail jobs_allowed_to_be_skipped : List Json) : Bool :=
  jobs.all fun nj =>
    result_in nj.2 (allowed_outcome_map jobs_allowed_to_fail jobs_allowed_to_be_skipped nj.1)

/-- allowed_to_fail_jobs_succeeded (source lines 213-217). -/
def allowed_to_fail_jobs_succeeded (jobs : List (String × Json))
    (jobs_allowed_to_fail : List Json) : Bool :=
  (jobs.filter fun nj => decide (Json.str nj.1 ∈ jobs_allowed_to_fail)).all
    fun nj => nj.2 = Json.str "success"

/-- allowed_to_be_skipped_jobs_succeeded (source lines 220-224). -/
def allowed_to_be_skipped_jobs_succeeded (jobs : List (String × Json))
    (jobs_allowed_to_be_skipped : List Json) : Bool :=
  (jobs.filter fun nj => decide (Json.str nj.1 ∈ jobs_allowed_to_be_skipped)).all
    fun nj => nj.2 = Json.str "success"

def success_headline : String :=
  "# ✓ All of the required dependency jobs succeeded 🎉🎉🎉"

def failure_headline : String :=
  "# ❌ Some of the required to succeed jobs failed 😢😢😢"

def all_fail_line : String :=
  "🛈 All of the allowed to fail dependency jobs succeeded."

def some_fail_line : String :=
  "🛈 Some of the allowed to fail jobs did not succeed."

def all_skip_line : String :=
  "🛈 All of the allowed to be skipped dependency jobs succeeded."

def some_skip_line : String :=
  "🛈 Some of the allowed to be skipped jobs did not succeed."

def job_statuses_line : String := "📝 Job statuses:"

/-- Rendering of the job result by str.format.  A string renders as
itself; the renderings of the other value shapes are abstracted, since no
theorem below inspects them. -/
def py_render : Json → String
  | Json.null => "None"
  | Json.bool b => if b then "True" else "False"
  | Json.num n => toString n
  | Json.flt z => if z then "0.0" else "1.0"
  | Json.str s => s
  | Json.arr _ => "[...]"
  | Json.obj _ => "(dict)"

def job_emoji (result : Json) : String :=
  if result = Json.str "success" then "✓"
  else if result = Json.str "failure" then "❌"
  else "⬜"

def job_status_text (name : String)
    (jobs_allowed_to_fail jobs_allowed_to_be_skipped : List Json) : String :=
  if Json.str name ∈ jobs_allowed_to_fail then "allowed to fail"
  else if Json.str name ∉ jobs_allowed_to_be_skipped then "required to succeed"
  else "required to succeed or be skipped"

/-- One per-job report line (source lines 136-152). -/
def job_line (name : String) (result : Json)
    (jobs_allowed_to_fail jobs_allowed_to_be_skipped : List Json) : String :=
  "📝 " ++ (name ++ " → " ++ job_emoji result ++ " " ++ py_render result
    ++ " [" ++ job_status_text name jobs_allowed_to_fail jobs_allowed_to_be_skipped ++ "]")

/-- log_decision_details (source lines 96-154), as the list of report
lines it writes; each += with a one-element set literal appends one line.
The fallback guard of the allowed-to-be-skipped pair tests
jobs_allowed_to_fail, exactly as source line 128 does. -/
def log_decision_details (job_matrix_succeeded_flag : Bool)
    (jobs_allowed_to_fail jobs_allowed_to_be_skipped : List Json)
    (allowed_to_fail_jobs_succeeded_flag allowed_to_be_skipped_jobs_succeeded_flag : Bool)
    (jobs : List (String × Json)) : List String :=
  [if job_matrix_succeeded_flag then success_headline else failure_headline, ""]
    ++ (if !jobs_allowed_to_fail.isEmpty && allowed_to_fail_jobs_succeeded_flag then
          [all_fail_line]
        else if !jobs_allowed_to_fail.isEmpty then [some_fail_line]
        else [])
    ++ (if !jobs_allowed_to_be_skipped.isEmpty && allowed_to_be_skipped_jobs_succeeded_flag then
          [all_skip_line]
        else if !jobs_allowed_to_fail.isEmpty then [some_skip_line]
        else [])
    ++ [job_statuses_line]
    ++ (jobs.map fun nj =>
          job_line nj.1 nj.2 jobs_allowed_to_fail jobs_allowed_to_be_skipped)

def py_bool_str (b : Bool) : String := if b then "true" else "false"

/-- set_final_result_outputs (source lines 54-61): the three key=value
lines appended to the GITHUB_OUTPUT sink. -/
def set_final_result_outputs (job_matrix_succeeded_flag : Bool) : List String :=
  ["failure=" ++ py_bool_str !job_matrix_succeeded_flag,
   "result=" ++ (if job_matrix_succeeded_flag then "success" else "failure"),
   "success=" ++ py_bool_str job_matrix_succeeded_flag]

/-- The observable effects of one invocation: the process return code, the
lines appended to the GITHUB_OUTPUT key/value sink, the lines appended to
the GITHUB_STEP_SUMMARY narrative sink, and the lines written to stderr.
The debug prints to stdout are not modelled. -/
structure RunResult where
  exit : Nat
  output_lines : List String
  summary_lines : List String
  stderr_lines : List String
  deriving DecidableEq

def invalid_matrix_line : String :=
  "# ❌ Invalid input jobs matrix, please provide a non-empty `needs` context"

/-- Extract the (name, result) pairs of the jobs dict, job["result"] for
each entry (source lines 198-224).  Python evaluates job["result"] lazily
inside all(...); this model extracts eagerly, which differs only on
matrices where short-circuiting hides a malformed later entry. -/
def extract_jobs : Json → Except String (List (String × Json))
  | Json.obj kvs =>
    kvs.mapM fun kv =>
      match kv.2 with
      | Json.obj fields =>
        match fields.find? fun f => f.1 = "result" with
        | some f => Except.ok (kv.1, f.2)
        | none => Except.error "KeyError: result"
      | _ => Except.error "TypeError: job is not a dict"
  | _ => Except.error "TypeError: jobs is not a dict"

/-- The evaluation path of main (source lines 189-243): compute the
verdict, write the three outputs, compute the two informational
sub-verdicts, write the report to stderr and the summary sink, and return
int(not job_matrix_succeeded). -/
def run_evaluation (jobs : List (String × Json))
    (jobs_allowed_to_fail jobs_allowed_to_be_skipped : List Json) : RunResult :=
  let jms := job_matrix_succeeded jobs jobs_allowed_to_fail jobs_allowed_to_be_skipped
  let report := log_decision_details jms jobs_allowed_to_fail jobs_allowed_to_be_skipped
    (allowed_to_fail_jobs_succeeded jobs jobs_allowed_to_fail)
    (allowed_to_be_skipped_jobs_succeeded jobs jobs_allowed_to_be_skipped)
    jobs
  { exit := if jms then 0 else 1
    output_lines := set_final_result_outputs jms
    summary_lines := report
    stderr_lines := report }

/-- The body of main after input parsing (source lines 164-243): build
the jobs dict (the or-else makes a falsy matrix the empty dict), build
the two allow-list sets (set() raises TypeError on an unhashable
element), fail fast on an empty dict, otherwise evaluate. -/
def main_with_inputs (inputs : ActionInputs) : Except String RunResult :=
  let jobs_json := if py_truthy inputs.jobs then inputs.jobs else Json.obj []
  if !inputs.allowed_failures.all py_hashable then
    Except.error "TypeError: unhashable type"
  else if !inputs.allowed_skips.all py_hashable then
    Except.error "TypeError: unhashable type"
  else if !py_truthy jobs_json then
    Except.ok ⟨1, [], [invalid_matrix_line], [invalid_matrix_line]⟩
  else
    match extract_jobs jobs_json with
    | Except.error e => Except.error e
    | Except.ok jobs =>
      run_evaluation jobs inputs.allowed_failures inputs.allowed_skips |> Except.ok

/-- main (source lines 157-243).  A propagated Except.error models an
uncaught Python exception, which makes the process exit non-zero without
returning from main. -/
def main (argv1 argv2 argv3 : String) : Except String RunResult :=
  match parse_inputs argv1 argv2 argv3 with
  | Except.error e => Except.error e
  | Except.ok inputs => main_with_inputs inputs

/- ------------------------------------------------------------------ -/
/- Helper lemmas                                                      -/
/- ------------------------------------------------------------------ -/

theorem result_in_allowed_iff (r : Json) (name : String) (F S : List Json) :
    result_in r (allowed_outcome_map F S name) = true ↔
      (r = Json.str "success" ∨
       (r = Json.str "skipped" ∧ Json.str name ∈ S) ∨
       (r = Json.str "failure" ∧ Json.str name ∈ F)) := by
  cases r <;>
    by_cases hS : Json.str name ∈ S <;>
      by_cases hF : Json.str name ∈ F <;>
        simp [result_in, allowed_outcome_map, hS, hF]

theorem job_matrix_succeeded_iff (jobs : List (String × Json)) (F S : List Json) :
    job_matrix_succeeded jobs F S = true ↔
      ∀ p ∈ jobs,
        (p.2 = Json.str "success" ∨
         (p.2 = Json.str "skipped" ∧ Json.str p.1 ∈ S) ∨
         (p.2 = Json.str "failure" ∧ Json.str p.1 ∈ F)) := by
  rw [job_matrix_succeeded, List.all_eq_true]
  exact forall₂_congr fun p _ => result_in_allowed_iff p.2 p.1 F S

theorem job_matrix_succeeded_mono (jobs : List (String × Json))
    {F F1 S S1 : List Json} (hF : ∀ x ∈ F, x ∈ F1) (hS : ∀ x ∈ S, x ∈ S1)
    (h : job_matrix_succeeded jobs F S = true) :
    job_matrix_succeeded jobs F1 S1 = true := by
  rw [job_matrix_succeeded_iff] at h ⊢
  intro p hp
  rcases h p hp with h1 | ⟨h2, h2m⟩ | ⟨h3, h3m⟩
  · exact Or.inl h1
  · exact Or.inr (Or.inl ⟨h2, hS _ h2m⟩)
  · exact Or.inr (Or.inr ⟨h3, hF _ h3m⟩)

theorem sub_verdict_all_iff (jobs : List (String × Json)) (L : List Json) :
    ((jobs.filter fun nj => decide (Json.str nj.1 ∈ L)).all
        fun nj => nj.2 = Json.str "success") = true ↔
      ∀ p ∈ jobs, Json.str p.1 ∈ L → p.2 = Json.str "success" := by
  rw [List.all_eq_true]
  constructor
  · intro h p hp hm
    have := h p (List.mem_filter.mpr ⟨hp, by simpa using hm⟩)
    simpa using this
  · intro h p hp
    have hm := List.mem_filter.mp hp
    simpa using h p hm.1 (by simpa using hm.2)

/- ------------------------------------------------------------------ -/
/- Claims                                                             -/
/- ------------------------------------------------------------------ -/

/-- C1: for every non-empty jobs mapping and every pair of allow-lists,
the computed verdict is true iff every job result lies in its permission
class: success always, skipped when the name is allowed to be skipped,
failure when the name is allowed to fail, and the union of the
relaxations when the name is in both allow-lists. -/
theorem C1_verdict_iff_permission_class (jobs : List (String × Json))
    (F S : List Json) (hne : jobs ≠ []) :
    job_matrix_succeeded jobs F S = true ↔
      ∀ p ∈ jobs,
        (p.2 = Json.str "success" ∨
         (p.2 = Json.str "skipped" ∧ Json.str p.1 ∈ S) ∨
         (p.2 = Json.str "failure" ∧ Json.str p.1 ∈ F)) :=
  job_matrix_succeeded_iff jobs F S

theorem C1_verdict_iff_permission_class_witness :
    job_matrix_succeeded
        [("A", Json.str "success"), ("B", Json.str "failure"), ("C", Json.str "skipped")]
        [Json.str "B", Json.str "C"] [Json.str "C"] = true :=
  (C1_verdict_iff_permission_class
      [("A", Json.str "success"), ("B", Json.str "failure"), ("C", Json.str "skipped")]
      [Json.str "B", Json.str "C"] [Json.str "C"] (by decide)).mpr (by decide)

/-- C3: enlarging either allow-list by one name never turns a true
verdict false. -/
theorem C3_relaxation_monotonic (jobs : List (String × Json))
    (F S : List Json) (x : Json) (hne : jobs ≠ [])
    (h : job_matrix_succeeded jobs F S = true) :
    job_matrix_succeeded jobs (x :: F) S = true ∧
    job_matrix_succeeded jobs F (x :: S) = true :=
  ⟨job_matrix_succeeded_mono jobs (fun y hy => List.mem_cons_of_mem x hy)
      (fun _ hy => hy) h,
   job_matrix_succeeded_mono jobs (fun _ hy => hy)
      (fun y hy => List.mem_cons_of_mem x hy) h⟩

theorem C3_relaxation_monotonic_witness :
    job_matrix_succeeded [("A", Json.str "success")] [Json.str "ghost", Json.str "B"] [] = true ∧
    job_matrix_succeeded [("A", Json.str "success")] [Json.str "B"] [Json.str "ghost"] = true :=
  ⟨(C3_relaxation_monotonic [("A", Json.str "success")] [Json.str "B"] []
      (Json.str "ghost") (by decide) (by decide)).1,
   (C3_relaxation_monotonic [("A", Json.str "success")] [Json.str "B"] []
      (Json.str "ghost") (by decide) (by decide)).2⟩

/-- C4: a job whose outcome is cancelled makes the verdict false whatever
the allow-lists hold; cancelled is never in a permission class. -/
theorem C4_cancelled_never_acceptable (jobs : List (String × Json))
    (F S : List Json) (hne : jobs ≠ [])
    (hc : ∃ p ∈ jobs, p.2 = Json.str "cancelled") :
    job_matrix_succeeded jobs F S = false := by
  obtain ⟨p, hp, hres⟩ := hc
  rw [← Bool.not_eq_true, job_matrix_succeeded_iff]
  intro hall
  rcases hall p hp with h1 | ⟨h2, _⟩ | ⟨h3, _⟩
  · rw [hres] at h1; simp at h1
  · rw [hres] at h2; simp at h2
  · rw [hres] at h3; simp at h3

theorem C4_cancelled_never_acceptable_witness :
    job_matrix_succeeded [("A", Json.str "cancelled")]
      [Json.str "A"] [Json.str "A"] = false :=
  C4_cancelled_never_acceptable [("A", Json.str "cancelled")]
    [Json.str "A"] [Json.str "A"] (by decide)
    ⟨("A", Json.str "cancelled"), by decide, rfl⟩

/-- C5: the informational sub-verdict allowedToFailSucceeded is the AND
over the jobs whose name is allowed to fail of outcome equalling success,
and symmetrically for allowedToBeSkippedSucceeded; the exit code and the
key/value output lines of an evaluation are functions of the overall
verdict alone, so neither sub-verdict affects the verdict value. -/
theorem C5_informational_sub_verdicts (jobs : List (String × Json))
    (F S : List Json) (hne : jobs ≠ []) :
    (allowed_to_fail_jobs_succeeded jobs F = true ↔
      ∀ p ∈ jobs, Json.str p.1 ∈ F → p.2 = Json.str "success") ∧
    (allowed_to_be_skipped_jobs_succeeded jobs S = true ↔
      ∀ p ∈ jobs, Json.str p.1 ∈ S → p.2 = Json.str "success") ∧
    (run_evaluation jobs F S).exit =
      (if job_matrix_succeeded jobs F S then 0 else 1) ∧
    (run_evaluation jobs F S).output_lines =
      set_final_result_outputs (job_matrix_succeeded jobs F S) :=
  ⟨sub_verdict_all_iff jobs F, sub_verdict_all_iff jobs S, rfl, rfl⟩

theorem C5_informational_sub_verdicts_witness :
    allowed_to_fail_jobs_succeeded
      [("A", Json.str "failure"), ("B", Json.str "success")] [Json.str "B"] = true :=
  (C5_informational_sub_verdicts
      [("A", Json.str "failure"), ("B", Json.str "success")]
      [Json.str "B"] [] (by decide)).1.mpr (by decide)

/-- C9: an allow-list whose names are all absent from the matrix makes its
informational sub-verdict vacuously true, and (when the allow-list is
non-empty) the report then carries the all-succeeded line for it. -/
theorem C9_absent_allow_list_vacuously_succeeds (jobs : List (String × Json))
    (F S : List Json) (hne : jobs ≠ []) :
    ((∀ p ∈ jobs, Json.str p.1 ∉ F) →
      allowed_to_fail_jobs_succeeded jobs F = true ∧
      (F ≠ [] → all_fail_line ∈ (run_evaluation jobs F S).summary_lines)) ∧
    ((∀ p ∈ jobs, Json.str p.1 ∉ S) →
      allowed_to_be_skipped_jobs_succeeded jobs S = true ∧
      (S ≠ [] → all_skip_line ∈ (run_evaluation jobs F S).summary_lines)) := by
  constructor
  · intro habs
    have hsv : allowed_to_fail_jobs_succeeded jobs F = true :=
      (sub_verdict_all_iff jobs F).mpr fun p hp hm => absurd hm (habs p hp)
    refine ⟨hsv, fun hFne => ?_⟩
    have hFe : F.isEmpty = false := by
      cases F with
      | nil => exact absurd rfl hFne
      | cons a l => rfl
    simp [run_evaluation, log_decision_details, hFe, hsv]
  · intro habs
    have hsv : allowed_to_be_skipped_jobs_succeeded jobs S = true :=
      (sub_verdict_all_iff jobs S).mpr fun p hp hm => absurd hm (habs p hp)
    refine ⟨hsv, fun hSne => ?_⟩
    have hSe : S.isEmpty = false := by
      cases S with
      | nil => exact absurd rfl hSne
      | cons a l => rfl
    simp [run_evaluation, log_decision_details, hSe, hsv]

theorem job_line_head_char (name : String) (r : Json) (F S : List Json) :
    (job_line name r F S).data.head? = some '📝' := by
  rw [job_line, String.data_append]
  rfl

theorem info_line_ne_job_line (t : String) (ht : t.data.head? = some '🛈')
    (name : String) (r : Json) (F S : List Json) :
    t ≠ job_line name r F S := by
  intro h
  rw [h, job_line_head_char] at ht
  exact absurd ht (by decide)

theorem info_not_mem_job_lines (t : String) (ht : t.data.head? = some '🛈')
    (jobs : List (String × Json)) (F S : List Json) :
    t ∉ jobs.map fun nj => job_line nj.1 nj.2 F S := by
  intro h
  obtain ⟨p, _, he⟩ := List.mem_map.mp h
  exact info_line_ne_job_line t ht p.1 p.2 F S he.symm

theorem C9_absent_allow_list_vacuously_succeeds_witness :
    allowed_to_fail_jobs_succeeded [("A", Json.str "success")] [Json.str "ghost"] = true ∧
    all_fail_line ∈
      (run_evaluation [("A", Json.str "success")] [Json.str "ghost"]
        [Json.str "phantom"]).summary_lines :=
  have h := (C9_absent_allow_list_vacuously_succeeds [("A", Json.str "success")]
    [Json.str "ghost"] [Json.str "phantom"] (by decide)).1 (by decide)
  ⟨h.1, h.2 (by decide)⟩

/-- C6 counterexample: with allowedToBeSkipped empty but allowedToFail
non-empty, the report of an evaluation still contains the
allowed-to-be-skipped informational line, so the line is not emitted only
when the corresponding allow-list is non-empty. -/
theorem C6_counterexample_skip_line_without_skip_list :
    some_skip_line ∈
      (run_evaluation [("a", Json.str "success")] [Json.str "a"]
        ([] : List Json)).summary_lines := by
  decide

/-- C6 amended: the report contains an informational line for the
allowed-to-fail pair iff allowedToFail is non-empty; it contains an
informational line for the allowed-to-be-skipped pair iff allowedToBeSkipped
is non-empty with all its matrix jobs succeeding, or allowedToFail is
non-empty — the fallback guard of the skipped pair tests allowedToFail
(source line 128), not allowedToBeSkipped. -/
theorem C6_info_line_emission (jobs : List (String × Json)) (F S : List Json) :
    ((all_fail_line ∈ (run_evaluation jobs F S).summary_lines ∨
      some_fail_line ∈ (run_evaluation jobs F S).summary_lines) ↔ F ≠ []) ∧
    ((all_skip_line ∈ (run_evaluation jobs F S).summary_lines ∨
      some_skip_line ∈ (run_evaluation jobs F S).summary_lines) ↔
      ((S ≠ [] ∧ allowed_to_be_skipped_jobs_succeeded jobs S = true) ∨ F ≠ [])) := by
  have hAF := info_not_mem_job_lines all_fail_line rfl jobs F S
  have hSF := info_not_mem_job_lines some_fail_line rfl jobs F S
  have hAS := info_not_mem_job_lines all_skip_line rfl jobs F S
  have hSS := info_not_mem_job_lines some_skip_line rfl jobs F S
  obtain ⟨e01, e02, e03, e04, e05, e06, e07, e08, e09, e10, e11, e12, e13,
      e14, e15, e16, e17, e18, e19, e20, e21, e22, e23, e24, e25, e26, e27, e28⟩ :
      (all_fail_line ≠ success_headline) ∧ (all_fail_line ≠ failure_headline) ∧
      (all_fail_line ≠ "") ∧ (all_fail_line ≠ job_statuses_line) ∧
      (some_fail_line ≠ success_headline) ∧ (some_fail_line ≠ failure_headline) ∧
      (some_fail_line ≠ "") ∧ (some_fail_line ≠ job_statuses_line) ∧
      (all_skip_line ≠ success_headline) ∧ (all_skip_line ≠ failure_headline) ∧
      (all_skip_line ≠ "") ∧ (all_skip_line ≠ job_statuses_line) ∧
      (some_skip_line ≠ success_headline) ∧ (some_skip_line ≠ failure_headline) ∧
      (some_skip_line ≠ "") ∧ (some_skip_line ≠ job_statuses_line) ∧
      (all_fail_line ≠ some_fail_line) ∧ (all_fail_line ≠ all_skip_line) ∧
      (all_fail_line ≠ some_skip_line) ∧ (some_fail_line ≠ all_fail_line) ∧
      (some_fail_line ≠ all_skip_line) ∧ (some_fail_line ≠ some_skip_line) ∧
      (all_skip_line ≠ all_fail_line) ∧ (all_skip_line ≠ some_fail_line) ∧
      (all_skip_line ≠ some_skip_line) ∧ (some_skip_line ≠ all_fail_line) ∧
      (some_skip_line ≠ some_fail_line) ∧ (some_skip_line ≠ all_skip_line) := by
    decide
  simp only [run_evaluation, log_decision_details, List.mem_append,
    List.mem_cons, List.mem_singleton]
  cases hjms : job_matrix_succeeded jobs F S <;>
    cases F with
    | nil =>
      cases S with
      | nil =>
        simp [hAF, hSF, hAS, hSS, e01, e02, e03, e04, e05, e06, e07, e08,
          e09, e10, e11, e12, e13, e14, e15, e16, e17, e18, e19, e20, e21,
          e22, e23, e24, e25, e26, e27, e28]
      | cons s ss =>
        cases hatbs : allowed_to_be_skipped_jobs_succeeded jobs (s :: ss) <;>
          simp [hatbs, hAF, hSF, hAS, hSS, e01, e02, e03, e04, e05, e06,
            e07, e08, e09, e10, e11, e12, e13, e14, e15, e16, e17, e18, e19,
            e20, e21, e22, e23, e24, e25, e26, e27, e28]
    | cons f fs =>
      cases hatf : allowed_to_fail_jobs_succeeded jobs (f :: fs) <;>
        cases S with
        | nil =>
          simp [hatf, hAF, hSF, hAS, hSS, e01, e02, e03, e04, e05, e06, e07,
            e08, e09, e10, e11, e12, e13, e14, e15, e16, e17, e18, e19, e20,
            e21, e22, e23, e24, e25, e26, e27, e28]
        | cons s ss =>
          cases hatbs : allowed_to_be_skipped_jobs_succeeded jobs (s :: ss) <;>
            simp [hatf, hatbs, hAF, hSF, hAS, hSS, e01, e02, e03, e04, e05,
              e06, e07, e08, e09, e10, e11, e12, e13, e14, e15, e16, e17,
              e18, e19, e20, e21, e22, e23, e24, e25, e26, e27, e28]

theorem parse_inputs_ok_iff (r1 r2 r3 : String) (inp : ActionInputs) :
    parse_inputs r1 r2 r3 = Except.ok inp ↔
      (drop_empty_from_list (parse_as_list r1) = Except.ok inp.allowed_failures ∧
       drop_empty_from_list (parse_as_list r2) = Except.ok inp.allowed_skips ∧
       json_loads r3 = some inp.jobs) := by
  obtain ⟨af, sk, j⟩ := inp
  unfold parse_inputs
  cases h1 : drop_empty_from_list (parse_as_list r1) with
  | error e => simp [h1]
  | ok af1 =>
    cases h2 : drop_empty_from_list (parse_as_list r2) with
    | error e => simp
    | ok sk1 =>
      cases h3 : json_loads r3 with
      | none => simp
      | some j1 => simp [eq_comm]

theorem parse_inputs_error_of_json_none (r1 r2 r3 : String)
    (h : json_loads r3 = none) :
    ∃ e, parse_inputs r1 r2 r3 = Except.error e := by
  unfold parse_inputs
  cases h1 : drop_empty_from_list (parse_as_list r1) with
  | error e => exact ⟨e, rfl⟩
  | ok af =>
    cases h2 : drop_empty_from_list (parse_as_list r2) with
    | error e => exact ⟨e, rfl⟩
    | ok sk => rw [h]; exact ⟨_, rfl⟩

theorem main_falsy_eq (a1 a2 a3 : String) (inp : ActionInputs)
    (hp : parse_inputs a1 a2 a3 = Except.ok inp)
    (h1 : inp.allowed_failures.all py_hashable = true)
    (h2 : inp.allowed_skips.all py_hashable = true)
    (hf : py_truthy inp.jobs = false) :
    main a1 a2 a3 =
      Except.ok ⟨1, [], [invalid_matrix_line], [invalid_matrix_line]⟩ := by
  have hobj : py_truthy (Json.obj []) = false := rfl
  unfold main
  rw [hp]
  unfold main_with_inputs
  simp [h1, h2, hf, hobj]

theorem main_eval_eq (a1 a2 a3 : String) (inp : ActionInputs)
    (jobs : List (String × Json))
    (hp : parse_inputs a1 a2 a3 = Except.ok inp)
    (h1 : inp.allowed_failures.all py_hashable = true)
    (h2 : inp.allowed_skips.all py_hashable = true)
    (ht : py_truthy inp.jobs = true)
    (hj : extract_jobs inp.jobs = Except.ok jobs) :
    main a1 a2 a3 =
      Except.ok (run_evaluation jobs inp.allowed_failures inp.allowed_skips) := by
  unfold main
  rw [hp]
  unfold main_with_inputs
  simp [h1, h2, ht, hj]

theorem main_with_inputs_ok_cases (inp : ActionInputs) (r : RunResult)
    (h : main_with_inputs inp = Except.ok r) :
    (py_truthy inp.jobs = false ∧
       r = ⟨1, [], [invalid_matrix_line], [invalid_matrix_line]⟩) ∨
      (py_truthy inp.jobs = true ∧
       ∃ jobs, extract_jobs inp.jobs = Except.ok jobs ∧
         r = run_evaluation jobs inp.allowed_failures inp.allowed_skips) := by
  have hobj : py_truthy (Json.obj []) = false := rfl
  unfold main_with_inputs at h
  by_cases h1 : inp.allowed_failures.all py_hashable = true
  · by_cases h2 : inp.allowed_skips.all py_hashable = true
    · by_cases ht : py_truthy inp.jobs = true
      · simp only [h1, h2, ht, Bool.not_true, if_true, if_false,
          Bool.false_eq_true, ite_false, ite_true] at h
        cases hj : extract_jobs inp.jobs with
        | error e => rw [hj] at h; exact absurd h (by simp)
        | ok jobs =>
          rw [hj] at h
          simp only [Except.ok.injEq] at h
          exact Or.inr ⟨ht, jobs, rfl, h.symm⟩
      · have hf : py_truthy inp.jobs = false := by
          cases hq : py_truthy inp.jobs
          · rfl
          · exact absurd hq ht
        simp only [h1, h2, hf, hobj, Bool.not_true, Bool.not_false,
          Bool.false_eq_true, ite_false, ite_true] at h
        simp only [Except.ok.injEq] at h
        exact Or.inl ⟨hf, h.symm⟩
    · have h2f : inp.allowed_skips.all py_hashable = false := by
        cases hq : inp.allowed_skips.all py_hashable
        · rfl
        · exact absurd hq h2
      simp [h1, h2f] at h
  · have h1f : inp.allowed_failures.all py_hashable = false := by
      cases hq : inp.allowed_failures.all py_hashable
      · rfl
      · exact absurd hq h1
    simp [h1f] at h

theorem main_ok_cases (a1 a2 a3 : String) (r : RunResult)
    (h : main a1 a2 a3 = Except.ok r) :
    r = ⟨1, [], [invalid_matrix_line], [invalid_matrix_line]⟩ ∨
      ∃ inp jobs, parse_inputs a1 a2 a3 = Except.ok inp ∧
        extract_jobs inp.jobs = Except.ok jobs ∧
        r = run_evaluation jobs inp.allowed_failures inp.allowed_skips := by
  unfold main at h
  cases hp : parse_inputs a1 a2 a3 with
  | error e => rw [hp] at h; exact absurd h (by simp)
  | ok inp =>
    rw [hp] at h
    rcases main_with_inputs_ok_cases inp r h with ⟨_, hr⟩ | ⟨_, jobs, hj, hr⟩
    · exact Or.inl hr
    · exact Or.inr ⟨inp, jobs, rfl, hj, hr⟩

/-- C2: main never returns an exit status other than 0 or 1; a malformed
jobs matrix makes it raise instead of returning; a falsy matrix returns
exit 1; and on a valid non-empty matrix the exit status is 0 iff the
verdict is true and 1 iff the verdict is false. -/
theorem C2_exit_status (a1 a2 a3 : String) :
    (∀ r, main a1 a2 a3 = Except.ok r → r.exit = 0 ∨ r.exit = 1) ∧
    (json_loads a3 = none → ∀ r, main a1 a2 a3 ≠ Except.ok r) ∧
    (∀ inp, parse_inputs a1 a2 a3 = Except.ok inp →
      inp.allowed_failures.all py_hashable = true →
      inp.allowed_skips.all py_hashable = true →
      py_truthy inp.jobs = false →
      ∃ r, main a1 a2 a3 = Except.ok r ∧ r.exit = 1) ∧
    (∀ inp jobs, parse_inputs a1 a2 a3 = Except.ok inp →
      inp.allowed_failures.all py_hashable = true →
      inp.allowed_skips.all py_hashable = true →
      py_truthy inp.jobs = true →
      extract_jobs inp.jobs = Except.ok jobs →
      ∀ r, main a1 a2 a3 = Except.ok r →
        (r.exit = 0 ↔
          job_matrix_succeeded jobs inp.allowed_failures inp.allowed_skips = true) ∧
        (r.exit = 1 ↔
          job_matrix_succeeded jobs inp.allowed_failures inp.allowed_skips = false)) := by
  refine ⟨?_, ?_, ?_, ?_⟩
  · intro r h
    rcases main_ok_cases a1 a2 a3 r h with hr | ⟨inp, jobs, _, _, hr⟩
    · rw [hr]
      exact Or.inr rfl
    · rw [hr]
      by_cases hjm :
          job_matrix_succeeded jobs inp.allowed_failures inp.allowed_skips = true
      · exact Or.inl (by simp [run_evaluation, hjm])
      · exact Or.inr (by simp [run_evaluation, hjm])
  · intro hnone r hok
    obtain ⟨e, he⟩ := parse_inputs_error_of_json_none a1 a2 a3 hnone
    unfold main at hok
    rw [he] at hok
    simp at hok
  · intro inp hp h1 h2 hf
    exact ⟨_, main_falsy_eq a1 a2 a3 inp hp h1 h2 hf, rfl⟩
  · intro inp jobs hp h1 h2 ht hj r hok
    rw [main_eval_eq a1 a2 a3 inp jobs hp h1 h2 ht hj] at hok
    simp only [Except.ok.injEq] at hok
    subst hok
    cases hjm :
        job_matrix_succeeded jobs inp.allowed_failures inp.allowed_skips <;>
      simp [run_evaluation, hjm]

theorem C2_exit_status_witness :
    ∃ r, main "[]" "[]" "\x7b\"A\": \x7b\"result\": \"success\"\x7d\x7d" =
        Except.ok r ∧ r.exit = 0 := by
  have h4 := (C2_exit_status "[]" "[]"
      "\x7b\"A\": \x7b\"result\": \"success\"\x7d\x7d").2.2.2
    ⟨[], [], Json.obj [("A", Json.obj [("result", Json.str "success")])]⟩
    [("A", Json.str "success")] (by decide) (by decide) (by decide)
    (by decide) (by decide)
  refine ⟨run_evaluation [("A", Json.str "success")] [] [], by decide, ?_⟩
  exact (h4 _ (by decide)).1.mpr (by decide)

/-- C7 counterexample: on the empty-matrix path the key/value sink
receives no lines at all, while the narrative sink receives the
explanatory line, refuting that both sinks are populated there. -/
theorem C7_counterexample_empty_matrix_outputs :
    ∃ r, main "" "" "\x7b\x7d" = Except.ok r ∧
      r.output_lines = [] ∧ r.summary_lines = [invalid_matrix_line] :=
  ⟨⟨1, [], [invalid_matrix_line], [invalid_matrix_line]⟩, by decide, rfl, rfl⟩

/-- C7 amended: on the empty-matrix path only the narrative sink and the
error stream receive the explanatory line and the key/value sink receives
nothing; both sinks and the error stream are populated on every run that
reaches evaluation. -/
theorem C7_sink_population (a1 a2 a3 : String) (inp : ActionInputs)
    (hp : parse_inputs a1 a2 a3 = Except.ok inp)
    (h1 : inp.allowed_failures.all py_hashable = true)
    (h2 : inp.allowed_skips.all py_hashable = true) :
    (py_truthy inp.jobs = false →
      main a1 a2 a3 =
        Except.ok ⟨1, [], [invalid_matrix_line], [invalid_matrix_line]⟩) ∧
    (py_truthy inp.jobs = true →
      ∀ jobs, extract_jobs inp.jobs = Except.ok jobs →
        ∀ r, main a1 a2 a3 = Except.ok r →
          r.output_lines ≠ [] ∧ r.summary_lines ≠ [] ∧ r.stderr_lines ≠ []) := by
  constructor
  · exact main_falsy_eq a1 a2 a3 inp hp h1 h2
  · intro ht jobs hj r hok
    rw [main_eval_eq a1 a2 a3 inp jobs hp h1 h2 ht hj] at hok
    simp only [Except.ok.injEq] at hok
    subst hok
    refine ⟨?_, ?_, ?_⟩ <;>
      simp [run_evaluation, set_final_result_outputs, log_decision_details]

theorem C7_sink_population_witness :
    main "" "" "\x7b\x7d" =
      Except.ok ⟨1, [], [invalid_matrix_line], [invalid_matrix_line]⟩ :=
  (C7_sink_population "" "" "\x7b\x7d" ⟨[], [], Json.obj []⟩ (by decide)
    rfl rfl).1 rfl

theorem filter_truthy_map_str_strip (xs : List String) :
    (xs.map fun t => Json.str (py_strip t)).filter py_truthy =
      ((xs.map py_strip).filter fun t => t ≠ "").map Json.str := by
  induction xs with
  | nil => rfl
  | cons x xs ih =>
    by_cases hx : py_strip x = ""
    · simp [py_truthy, hx, ih]
    · simp [py_truthy, hx, ih]

/-- C8 counterexample: the input "123" parses as JSON to the number 123,
which is not iterable, so the drop-empty comprehension of the allow-list
normalization raises TypeError instead of never failing. -/
theorem C8_counterexample_json_number_input :
    json_loads "123" = some (Json.num 123) ∧
    drop_empty_from_list (parse_as_list "123") =
      Except.error "TypeError: object is not iterable" :=
  ⟨by decide, by decide⟩

/-- C8 amended: allow-list normalization is total on every input string
whose JSON parse fails (the comma-split fallback trims each piece and
drops the empty ones; a comma-free input yields at most the single-element
list of its trimmed self, and the empty string yields the empty list); an
input that parses as JSON to a non-iterable value such as a number raises
TypeError instead. -/
theorem C8_fallback_normalization_total (s : String) (h : json_loads s = none) :
    drop_empty_from_list (parse_as_list s) =
      Except.ok
        ((((py_split_comma s).map py_strip).filter fun t => t ≠ "").map
          Json.str) ∧
    drop_empty_from_list (parse_as_list "") = Except.ok [] := by
  constructor
  · rw [parse_as_list, h]
    simp only [drop_empty_from_list, py_iter, Except.map]
    rw [filter_truthy_map_str_strip]
  · decide

theorem C8_fallback_normalization_total_witness :
    drop_empty_from_list (parse_as_list " a, ,b ") =
      Except.ok [Json.str "a", Json.str "b"] := by
  rw [(C8_fallback_normalization_total " a, ,b " (by decide)).1]
  decide

/-- C10: a matrix argument that parses as JSON to a falsy value (null,
the empty array, false, explicitly covered by the witness) is handled
exactly like the empty mapping: main takes the invalid-matrix path,
writes the invalid-input narrative line and returns 1 without raising. -/
theorem C10_falsy_matrix_like_empty (a1 a2 a3 : String) (inp : ActionInputs)
    (hp : parse_inputs a1 a2 a3 = Except.ok inp)
    (h1 : inp.allowed_failures.all py_hashable = true)
    (h2 : inp.allowed_skips.all py_hashable = true)
    (hf : py_truthy inp.jobs = false) :
    main a1 a2 a3 =
      Except.ok ⟨1, [], [invalid_matrix_line], [invalid_matrix_line]⟩ ∧
    main a1 a2 a3 = main a1 a2 "\x7b\x7d" := by
  have hmain := main_falsy_eq a1 a2 a3 inp hp h1 h2 hf
  refine ⟨hmain, ?_⟩
  have hcomp := (parse_inputs_ok_iff a1 a2 a3 inp).mp hp
  have hp2 : parse_inputs a1 a2 "\x7b\x7d" =
      Except.ok ⟨inp.allowed_failures, inp.allowed_skips, Json.obj []⟩ := by
    apply (parse_inputs_ok_iff a1 a2 "\x7b\x7d" _).mpr
    exact ⟨hcomp.1, hcomp.2.1,
      (by decide : json_loads "\x7b\x7d" = some (Json.obj []))⟩
  have hmain2 := main_falsy_eq a1 a2 "\x7b\x7d"
    ⟨inp.allowed_failures, inp.allowed_skips, Json.obj []⟩ hp2 h1 h2 rfl
  rw [hmain, hmain2]

theorem C10_falsy_matrix_like_empty_witness :
    main "" "" "null" =
      Except.ok ⟨1, [], [invalid_matrix_line], [invalid_matrix_line]⟩ ∧
    main "" "" "[]" =
      Except.ok ⟨1, [], [invalid_matrix_line], [invalid_matrix_line]⟩ ∧
    main "" "" "false" =
      Except.ok ⟨1, [], [invalid_matrix_line], [invalid_matrix_line]⟩ :=
  ⟨(C10_falsy_matrix_like_empty "" "" "null" ⟨[], [], Json.null⟩
      (by decide) rfl rfl rfl).1,
   (C10_falsy_matrix_like_empty "" "" "[]" ⟨[], [], Json.arr []⟩
      (by decide) rfl rfl rfl).1,
   (C10_falsy_matrix_like_empty "" "" "false" ⟨[], [], Json.bool false⟩
      (by decide) rfl rfl rfl).1⟩

end AllsGreen
